import Mathlib

/-!
Shallow embedding of `drivers/leds/boeffla_touchkey_control.c`
(Boeffla touchkey control driver, version 1.3.1).

The driver arbitrates control of the touch-button backlight LED.  Its
mutable state is the globals `btkc_mode`, `btkc_timeout`, `touched`, plus
the single delayed work item `led_work`.  We embed every entry point as a
function from a state record to a new state record paired with the trace
of externally visible commands it issues (actuator commands, timer
schedule/cancel operations, lifecycle calls).

The pending-timer bookkeeping is instrumented as a counter: every
`schedule_delayed_work` call increments the count of live timers and every
`cancel_delayed_work` call resets it to zero, so a code path that scheduled
without first cancelling would drive the count above one.
-/

namespace Btkc

/-- An LED actuator command value, as passed to
`qpnp_boeffla_set_button_backlight` (binary on/off). -/
inductive LedCmd
  | LED_ON
  | LED_OFF
  deriving DecidableEq, Repr

/-- Externally visible effects issued by the driver entry points:
actuator commands, delayed-work operations and teardown plumbing calls. -/
inductive Eff
  | led (c : LedCmd)
  | cancel
  | schedule (delayMs : Nat)
  | flush
  | sysfsRemove
  | fbUnregister
  deriving DecidableEq, Repr

/-- Modelled from the spec: the header `linux/boeffla_touchkey_control.h`
is not in the sources; the sysfs documentation block in the driver and the
spec give mode value 0 = "touchkey and display". -/
def MODE_TOUCHKEY_DISP : Nat := 0

/-- Modelled from the spec: mode value 1 = "touch key buttons only"
(the default). -/
def MODE_TOUCHKEY_ONLY : Nat := 1

/-- Modelled from the spec: mode value 2 = "off - touch key lights are
always off". -/
def MODE_OFF : Nat := 2

/-- Modelled from the spec: default timeout 0 = "ROM controls timeout". -/
def TIMEOUT_DEFAULT : Nat := 0

/-- Modelled from the spec: the timeout store accepts values in
`[0,30] ∪ [31,30000]`, so the lower bound of the guard is 0. -/
def TIMEOUT_MIN : Nat := 0

/-- Modelled from the spec: the timeout store accepts values in
`[0,30] ∪ [31,30000]`, so the upper bound of the guard is 30000. -/
def TIMEOUT_MAX : Nat := 30000

/-- External constant from `asm-generic/errno-base.h`: `EPERM` = 1; the
driver returns `-EPERM` as its permission-denied signal. -/
def EPERM : Int := 1

/-- External constant from `linux/fb.h`: `FB_EVENT_BLANK` = 0x09. -/
def FB_EVENT_BLANK : Nat := 9

/-- External constant from `linux/fb.h`: `FB_BLANK_UNBLANK` = 0. -/
def FB_BLANK_UNBLANK : Int := 0

/-- Driver state: the globals `btkc_mode`, `btkc_timeout` and `touched`
of the C file, plus the instrumented count of pending `led_work` timers. -/
structure S where
  btkc_mode : Nat
  btkc_timeout : Nat
  touched : Nat
  pending : Nat
  deriving DecidableEq, Repr

/-- Initial state: `btkc_mode = MODE_TOUCHKEY_ONLY`,
`btkc_timeout = TIMEOUT_DEFAULT`, `touched` zero-initialised, no work
scheduled. -/
def btkcInit : S :=
  { btkc_mode := MODE_TOUCHKEY_ONLY
    btkc_timeout := TIMEOUT_DEFAULT
    touched := 0
    pending := 0 }

/-- `qpnp_boeffla_set_button_backlight(c)`: fire-and-forget command to the
external LED driver; only the issued command is observable. -/
def qpnp_boeffla_set_button_backlight (c : LedCmd) : List Eff :=
  [Eff.led c]

/-- `cancel_delayed_work(&led_work)`: removes any pending `led_work`
timer; instrumented as zeroing the pending count (idempotent). -/
def cancel_delayed_work (s : S) : S × List Eff :=
  ({ s with pending := 0 }, [Eff.cancel])

/-- `schedule_delayed_work(&led_work, msecs_to_jiffies(d))`: arms a
deferred-off timer `d` milliseconds in the future; instrumented as
incrementing the pending count.  The delay is recorded in milliseconds
(the `msecs_to_jiffies` conversion is a unit change the claims do not
observe). -/
def schedule_delayed_work (s : S) (d : Nat) : S × List Eff :=
  ({ s with pending := s.pending + 1 }, [Eff.schedule d])

/-- `led_work_func`: the timer-fire callback; switches the LED off and
cancels any scheduled work. -/
def led_work_func (s : S) : S × List Eff :=
  let e1 := qpnp_boeffla_set_button_backlight LedCmd.LED_OFF
  let (s2, e2) := cancel_delayed_work s
  (s2, e1 ++ e2)

/-- `fb_notifier_callback`: on `FB_EVENT_BLANK` with blank level
`FB_BLANK_UNBLANK` (display turned on), switches the LED off and cancels
any scheduled work; all other events fall to the default branch.  The
`blank : Option Int` argument models the `evdata->data` pointer (`none`
when the event carries no data).  Always returns 0. -/
def fb_notifier_callback (s : S) (event : Nat) (blank : Option Int) :
    S × List Eff × Int :=
  match blank with
  | some b =>
    if event = FB_EVENT_BLANK then
      if b = FB_BLANK_UNBLANK then
        let e1 := qpnp_boeffla_set_button_backlight LedCmd.LED_OFF
        let (s2, e2) := cancel_delayed_work s
        (s2, e1 ++ e2, 0)
      else
        (s, [], 0)
    else
      (s, [], 0)
  | none => (s, [], 0)

/-- `btkc_touch_start`: sets `touched = 1`; only in touchkey+display mode
switches the LED on and cancels any scheduled work. -/
def btkc_touch_start (s : S) : S × List Eff :=
  let s1 := { s with touched := 1 }
  if s1.btkc_mode = MODE_TOUCHKEY_DISP then
    let e1 := qpnp_boeffla_set_button_backlight LedCmd.LED_ON
    let (s2, e2) := cancel_delayed_work s1
    (s2, e1 ++ e2)
  else
    (s1, [])

/-- `btkc_touch_stop`: sets `touched = 0`; only in touchkey+display mode
cancels any scheduled work and schedules `led_work` after
`btkc_timeout` milliseconds. -/
def btkc_touch_stop (s : S) : S × List Eff :=
  let s1 := { s with touched := 0 }
  if s1.btkc_mode = MODE_TOUCHKEY_DISP then
    let (s2, e2) := cancel_delayed_work s1
    let (s3, e3) := schedule_delayed_work s2 s2.btkc_timeout
    (s3, e2 ++ e3)
  else
    (s1, [])

/-- `btkc_touch_button`: in touchkey+display mode, or in touchkey-only
mode with a nonzero (kernel-controlled) timeout, switches the LED on,
cancels any scheduled work and schedules `led_work` after `btkc_timeout`
milliseconds; otherwise does nothing. -/
def btkc_touch_button (s : S) : S × List Eff :=
  if s.btkc_mode = MODE_TOUCHKEY_DISP ∨
      (s.btkc_mode = MODE_TOUCHKEY_ONLY ∧ s.btkc_timeout ≠ 0) then
    let e1 := qpnp_boeffla_set_button_backlight LedCmd.LED_ON
    let (s2, e2) := cancel_delayed_work s
    let (s3, e3) := schedule_delayed_work s2 s2.btkc_timeout
    (s3, e1 ++ e2 ++ e3)
  else
    (s, [])

/-- `btkc_led_set`: the hook for the hardware LED driver (`led_set` in
leds-qpnp); returns `-EPERM` unless the driver is in touchkey-only mode
with no kernel-based timeout, otherwise returns `val` unchanged.  The C
body only reads the globals, so the state is not an output. -/
def btkc_led_set (s : S) (val : Int) : Int :=
  if s.btkc_mode ≠ MODE_TOUCHKEY_ONLY ∨
      (s.btkc_mode = MODE_TOUCHKEY_ONLY ∧ s.btkc_timeout ≠ 0) then
    -EPERM
  else
    val

/-- `btkc_mode_store` after a successful `kstrtoint` parse: `val` is the
parsed number reinterpreted as `unsigned int` (hence `Nat`).  Stores the
value when it lies in `[MODE_TOUCHKEY_DISP, MODE_OFF]`, then cancels any
scheduled work and switches the LED off; otherwise does nothing. -/
def btkc_mode_store (s : S) (val : Nat) : S × List Eff :=
  if MODE_TOUCHKEY_DISP ≤ val ∧ val ≤ MODE_OFF then
    let s1 := { s with btkc_mode := val }
    let (s2, e2) := cancel_delayed_work s1
    let e3 := qpnp_boeffla_set_button_backlight LedCmd.LED_OFF
    (s2, e2 ++ e3)
  else
    (s, [])

/-- `btkc_timeout_store` after a successful `kstrtoint` parse: stores
`val` when it lies in `[TIMEOUT_MIN, TIMEOUT_MAX]`, multiplies a stored
value `≤ 30` by 1000 (seconds-to-milliseconds migration), then cancels
any scheduled work and switches the LED off; otherwise does nothing. -/
def btkc_timeout_store (s : S) (val : Nat) : S × List Eff :=
  if TIMEOUT_MIN ≤ val ∧ val ≤ TIMEOUT_MAX then
    let s1 := { s with btkc_timeout := val }
    let s2 :=
      if s1.btkc_timeout ≤ 30 then
        { s1 with btkc_timeout := s1.btkc_timeout * 1000 }
      else
        s1
    let (s3, e3) := cancel_delayed_work s2
    let e4 := qpnp_boeffla_set_button_backlight LedCmd.LED_OFF
    (s3, e3 ++ e4)
  else
    (s, [])

/-- `btk_control_exit`: module teardown; removes the sysfs group, cancels
and flushes any remaining scheduled work, and unregisters the screen
notifier.  No actuator command appears in the body. -/
def btk_control_exit (s : S) : S × List Eff :=
  let e1 := [Eff.sysfsRemove]
  let (s2, e2) := cancel_delayed_work s
  let e3 := [Eff.flush]
  let e4 := [Eff.fbUnregister]
  (s2, e1 ++ e2 ++ e3 ++ e4)

/-- The trigger entry points of the driver, as invoked by its external
callers (touch subsystem, LED driver hook, framebuffer notifier, sysfs
writes, workqueue fire). -/
inductive Op
  | touchStart
  | touchStop
  | touchButton
  | ledSet (v : Int)
  | fbEvent (event : Nat) (blank : Option Int)
  | modeStore (v : Nat)
  | timeoutStore (v : Nat)
  | timerFire
  deriving DecidableEq, Repr

/-- One trigger step: state transition of the corresponding entry point
(`btkc_led_set` reads but never writes the globals). -/
def step (s : S) (op : Op) : S :=
  match op with
  | Op.touchStart => (btkc_touch_start s).1
  | Op.touchStop => (btkc_touch_stop s).1
  | Op.touchButton => (btkc_touch_button s).1
  | Op.ledSet _ => s
  | Op.fbEvent e b => (fb_notifier_callback s e b).1
  | Op.modeStore v => (btkc_mode_store s v).1
  | Op.timeoutStore v => (btkc_timeout_store s v).1
  | Op.timerFire => (led_work_func s).1

/-- Run a sequence of triggers from a state. -/
def run (s : S) (ops : List Op) : S :=
  ops.foldl step s

/-! Equation lemmas: each entry point reduced to an explicit
state/trace pair. -/

lemma touch_start_eq (s : S) :
    btkc_touch_start s =
      if s.btkc_mode = MODE_TOUCHKEY_DISP then
        ({ s with touched := 1, pending := 0 },
          [Eff.led LedCmd.LED_ON, Eff.cancel])
      else
        ({ s with touched := 1 }, []) := by
  simp only [btkc_touch_start, qpnp_boeffla_set_button_backlight,
    cancel_delayed_work, List.cons_append, List.nil_append]

lemma touch_stop_eq (s : S) :
    btkc_touch_stop s =
      if s.btkc_mode = MODE_TOUCHKEY_DISP then
        ({ s with touched := 0, pending := 1 },
          [Eff.cancel, Eff.schedule s.btkc_timeout])
      else
        ({ s with touched := 0 }, []) := by
  simp only [btkc_touch_stop, cancel_delayed_work, schedule_delayed_work,
    List.cons_append, List.nil_append]

lemma touch_button_eq (s : S) :
    btkc_touch_button s =
      if s.btkc_mode = MODE_TOUCHKEY_DISP ∨
          (s.btkc_mode = MODE_TOUCHKEY_ONLY ∧ s.btkc_timeout ≠ 0) then
        ({ s with pending := 1 },
          [Eff.led LedCmd.LED_ON, Eff.cancel, Eff.schedule s.btkc_timeout])
      else
        (s, []) := by
  simp only [btkc_touch_button, qpnp_boeffla_set_button_backlight,
    cancel_delayed_work, schedule_delayed_work, List.cons_append,
    List.nil_append]

lemma mode_store_eq (s : S) (val : Nat) :
    btkc_mode_store s val =
      if val ≤ MODE_OFF then
        ({ s with btkc_mode := val, pending := 0 },
          [Eff.cancel, Eff.led LedCmd.LED_OFF])
      else
        (s, []) := by
  simp only [btkc_mode_store, qpnp_boeffla_set_button_backlight,
    cancel_delayed_work, MODE_TOUCHKEY_DISP, Nat.zero_le, true_and,
    List.cons_append, List.nil_append]

lemma timeout_store_eq (s : S) (val : Nat) :
    btkc_timeout_store s val =
      if val ≤ TIMEOUT_MAX then
        ({ s with
            btkc_timeout := if val ≤ 30 then val * 1000 else val,
            pending := 0 },
          [Eff.cancel, Eff.led LedCmd.LED_OFF])
      else
        (s, []) := by
  simp only [btkc_timeout_store, qpnp_boeffla_set_button_backlight,
    cancel_delayed_work, TIMEOUT_MIN, Nat.zero_le, true_and,
    List.cons_append, List.nil_append]
  split
  · split <;> rfl
  · rfl

lemma led_work_func_eq (s : S) :
    led_work_func s =
      ({ s with pending := 0 }, [Eff.led LedCmd.LED_OFF, Eff.cancel]) := by
  simp only [led_work_func, qpnp_boeffla_set_button_backlight,
    cancel_delayed_work, List.cons_append, List.nil_append]

lemma fb_callback_eq (s : S) (event : Nat) (blank : Option Int) :
    fb_notifier_callback s event blank =
      if event = FB_EVENT_BLANK ∧ blank = some FB_BLANK_UNBLANK then
        ({ s with pending := 0 },
          [Eff.led LedCmd.LED_OFF, Eff.cancel], 0)
      else
        (s, [], 0) := by
  cases blank with
  | none => simp [fb_notifier_callback]
  | some b =>
    simp only [fb_notifier_callback, qpnp_boeffla_set_button_backlight,
      cancel_delayed_work, List.cons_append, List.nil_append,
      Option.some.injEq]
    by_cases he : event = FB_EVENT_BLANK <;>
      by_cases hb : b = FB_BLANK_UNBLANK <;>
      simp [he, hb]

lemma exit_eq (s : S) :
    btk_control_exit s =
      ({ s with pending := 0 },
        [Eff.sysfsRemove, Eff.cancel, Eff.flush, Eff.fbUnregister]) := by
  simp only [btk_control_exit, cancel_delayed_work, List.cons_append,
    List.nil_append]

/-! The pending-count invariant: every step leaves at most one timer
pending. -/

lemma pending_step_le (s : S) (op : Op) (h : s.pending ≤ 1) :
    (step s op).pending ≤ 1 := by
  cases op with
  | touchStart =>
    simp only [step, touch_start_eq]
    split <;> simp [h]
  | touchStop =>
    simp only [step, touch_stop_eq]
    split <;> simp [h]
  | touchButton =>
    simp only [step, touch_button_eq]
    split <;> simp [h]
  | ledSet v => simpa [step] using h
  | fbEvent e b =>
    simp only [step, fb_callback_eq]
    split <;> simp [h]
  | modeStore v =>
    simp only [step, mode_store_eq]
    split <;> simp [h]
  | timeoutStore v =>
    simp only [step, timeout_store_eq]
    split <;> simp [h]
  | timerFire => simp [step, led_work_func_eq]

lemma run_pending_le (ops : List Op) (s : S) (h : s.pending ≤ 1) :
    (run s ops).pending ≤ 1 := by
  induction ops generalizing s with
  | nil => exact h
  | cons op ops ih => exact ih (step s op) (pending_step_le s op h)

/-- C1: for every sequence of calls to the trigger entry points
(touch_start, touch_stop, touch_button, hardware_led_request,
screen_unblank and the other display events, set_mode, set_timeout, timer
fire), at most one deferred-off timer is pending at any instant: the
instrumented count of live `led_work` timers never exceeds one in any
reachable state. -/
theorem at_most_one_timer_pending (ops : List Op) :
    (run btkcInit ops).pending ≤ 1 :=
  run_pending_le ops btkcInit (Nat.zero_le 1)

/-- C2: `btkc_led_set` returns the requested value unchanged exactly when
the mode is `MODE_TOUCHKEY_ONLY` and the timeout is 0, and returns the
permission-denied signal `-EPERM` in every other mode/timeout
combination. -/
theorem led_set_permission (s : S) (v : Int) :
    btkc_led_set s v =
      if s.btkc_mode = MODE_TOUCHKEY_ONLY ∧ s.btkc_timeout = 0 then v
      else -EPERM := by
  simp only [btkc_led_set]
  by_cases hm : s.btkc_mode = MODE_TOUCHKEY_ONLY <;>
    by_cases ht : s.btkc_timeout = 0 <;> simp [hm, ht]

/-- C3: `btkc_touch_button` switches the LED on, cancels any pending
timer and schedules a deferred off after `btkc_timeout` milliseconds
exactly when the mode is `MODE_TOUCHKEY_DISP`, or the mode is
`MODE_TOUCHKEY_ONLY` with a nonzero timeout; when the mode is
`MODE_TOUCHKEY_ONLY` with timeout 0, or `MODE_OFF`, it leaves the state
unchanged and issues no actuator command and no timer operation. -/
theorem touch_button_cases (s : S) :
    (s.btkc_mode = MODE_TOUCHKEY_DISP ∨
        (s.btkc_mode = MODE_TOUCHKEY_ONLY ∧ s.btkc_timeout ≠ 0) →
      btkc_touch_button s =
        ({ s with pending := 1 },
          [Eff.led LedCmd.LED_ON, Eff.cancel,
            Eff.schedule s.btkc_timeout])) ∧
    ((s.btkc_mode = MODE_TOUCHKEY_ONLY ∧ s.btkc_timeout = 0) ∨
        s.btkc_mode = MODE_OFF →
      btkc_touch_button s = (s, [])) := by
  constructor
  · intro h
    simp [touch_button_eq, h]
  · intro h
    rw [touch_button_eq, if_neg]
    rcases h with ⟨h1, h2⟩ | h1
    · simp [h1, h2, MODE_TOUCHKEY_DISP, MODE_TOUCHKEY_ONLY]
    · simp [h1, MODE_TOUCHKEY_DISP, MODE_TOUCHKEY_ONLY, MODE_OFF]

/-- C3 witness: the theorem applied in touchkey+display mode with
timeout 2000, and in off mode. -/
theorem touch_button_cases_witness :
    btkc_touch_button ⟨0, 2000, 0, 0⟩ =
      (⟨0, 2000, 0, 1⟩,
        [Eff.led LedCmd.LED_ON, Eff.cancel, Eff.schedule 2000]) ∧
    btkc_touch_button ⟨2, 500, 1, 1⟩ = (⟨2, 500, 1, 1⟩, []) :=
  ⟨(touch_button_cases ⟨0, 2000, 0, 0⟩).1 (Or.inl rfl),
    (touch_button_cases ⟨2, 500, 1, 1⟩).2 (Or.inr rfl)⟩

/-- C7: on the unblank display event (`FB_EVENT_BLANK` with blank level
`FB_BLANK_UNBLANK`), the framebuffer callback commands the actuator OFF
and cancels any pending deferred-off timer (pending count drops to 0, so
the cancelled timer can no longer fire); every other display event leaves
the state unchanged and issues no actuator command and no timer
operation. -/
theorem fb_unblank_spec (s : S) (event : Nat) (blank : Option Int) :
    fb_notifier_callback s FB_EVENT_BLANK (some FB_BLANK_UNBLANK) =
      ({ s with pending := 0 },
        [Eff.led LedCmd.LED_OFF, Eff.cancel], 0) ∧
    (¬(event = FB_EVENT_BLANK ∧ blank = some FB_BLANK_UNBLANK) →
      fb_notifier_callback s event blank = (s, [], 0)) := by
  constructor
  · simp [fb_callback_eq]
  · intro h
    simp [fb_callback_eq, h]

/-- C7 witness: the theorem applied at a state with a pending timer, for
the unblank event and for an ignored event (`FB_EVENT_BLANK` with a
non-unblank level). -/
theorem fb_unblank_spec_witness :
    fb_notifier_callback ⟨0, 2000, 0, 1⟩ FB_EVENT_BLANK
        (some FB_BLANK_UNBLANK) =
      (⟨0, 2000, 0, 0⟩, [Eff.led LedCmd.LED_OFF, Eff.cancel], 0) ∧
    fb_notifier_callback ⟨0, 2000, 0, 1⟩ 9 (some 4) =
      (⟨0, 2000, 0, 1⟩, [], 0) :=
  ⟨(fb_unblank_spec ⟨0, 2000, 0, 1⟩ 9 (some 4)).1,
    (fb_unblank_spec ⟨0, 2000, 0, 1⟩ 9 (some 4)).2 (by decide)⟩

/-- C8: `btkc_touch_stop` always sets `touched` to 0; when the mode is
`MODE_TOUCHKEY_DISP` it additionally cancels any pending timer and
schedules a deferred off after exactly the stored `btkc_timeout`
milliseconds, used verbatim (a stored 0 schedules an off with zero
delay); in every other mode it issues no actuator command and no timer
operation. -/
theorem touch_stop_cases (s : S) :
    (btkc_touch_stop s).1.touched = 0 ∧
    (s.btkc_mode = MODE_TOUCHKEY_DISP →
      btkc_touch_stop s =
        ({ s with touched := 0, pending := 1 },
          [Eff.cancel, Eff.schedule s.btkc_timeout])) ∧
    (s.btkc_mode ≠ MODE_TOUCHKEY_DISP →
      btkc_touch_stop s = ({ s with touched := 0 }, [])) := by
  refine ⟨?_, ?_, ?_⟩
  · rw [touch_stop_eq]
    split <;> rfl
  · intro h
    simp [touch_stop_eq, h]
  · intro h
    simp [touch_stop_eq, h]

/-! The stored-timeout range invariant. -/

lemma timeout_store_timeout (s : S) (v : Nat) :
    (btkc_timeout_store s v).1.btkc_timeout =
      if v ≤ 30000 then (if v ≤ 30 then v * 1000 else v)
      else s.btkc_timeout := by
  rw [timeout_store_eq]
  simp only [TIMEOUT_MAX]
  split <;> rfl

lemma timeout_step_inv (s : S) (op : Op)
    (h : s.btkc_timeout = 0 ∨
      (31 ≤ s.btkc_timeout ∧ s.btkc_timeout ≤ 30000)) :
    (step s op).btkc_timeout = 0 ∨
      (31 ≤ (step s op).btkc_timeout ∧
        (step s op).btkc_timeout ≤ 30000) := by
  cases op with
  | touchStart =>
    rw [step, touch_start_eq]
    split <;> exact h
  | touchStop =>
    rw [step, touch_stop_eq]
    split <;> exact h
  | touchButton =>
    rw [step, touch_button_eq]
    split <;> exact h
  | ledSet v => exact h
  | fbEvent e b =>
    rw [step, fb_callback_eq]
    split <;> exact h
  | modeStore v =>
    rw [step, mode_store_eq]
    split <;> exact h
  | timeoutStore v =>
    rw [step, timeout_store_timeout]
    split
    · split <;> omega
    · exact h
  | timerFire =>
    rw [step, led_work_func_eq]
    exact h

lemma run_timeout_inv (ops : List Op) (s : S)
    (h : s.btkc_timeout = 0 ∨
      (31 ≤ s.btkc_timeout ∧ s.btkc_timeout ≤ 30000)) :
    (run s ops).btkc_timeout = 0 ∨
      (31 ≤ (run s ops).btkc_timeout ∧
        (run s ops).btkc_timeout ≤ 30000) := by
  induction ops generalizing s with
  | nil => exact h
  | cons op ops ih => exact ih (step s op) (timeout_step_inv s op h)

/-- C8 witness: the theorem applied in touchkey+display mode with a
stored timeout of 0 (zero-delay off is scheduled verbatim), and in
touchkey-only mode. -/
theorem touch_stop_cases_witness :
    (btkc_touch_stop ⟨0, 0, 1, 0⟩).1.touched = 0 ∧
    btkc_touch_stop ⟨0, 0, 1, 0⟩ =
      (⟨0, 0, 0, 1⟩, [Eff.cancel, Eff.schedule 0]) ∧
    btkc_touch_stop ⟨1, 2000, 1, 0⟩ = (⟨1, 2000, 0, 0⟩, []) :=
  ⟨(touch_stop_cases ⟨0, 0, 1, 0⟩).1,
    (touch_stop_cases ⟨0, 0, 1, 0⟩).2.1 rfl,
    (touch_stop_cases ⟨1, 2000, 1, 0⟩).2.2 (by decide)⟩

/-- C4 counterexample: writing 500 to the timeout store from the default
state is accepted (500 lies in the guard range `[0, 30000]`) and, being
above 30, is stored without the ×1000 scaling, so the stored timeout
becomes 500 — a value inside the band 1..999 that the claimed invariant
excludes. -/
theorem timeout_range_invariant_cex :
    (run btkcInit [Op.timeoutStore 500]).btkc_timeout = 500 ∧
    1 ≤ (run btkcInit [Op.timeoutStore 500]).btkc_timeout ∧
    (run btkcInit [Op.timeoutStore 500]).btkc_timeout ≤ 999 := by
  decide

/-- C4 amended: the stored timeout is always either 0 or within
`[31, 30000]` — starting from the default value, after every sequence of
triggers (in particular every sequence of timeout writes, each rejected
or accepted with the ≤ 30 legacy-seconds scaling applied), the stored
value never lies in 1..30 and never exceeds 30000. -/
theorem timeout_range_invariant (ops : List Op) :
    (run btkcInit ops).btkc_timeout = 0 ∨
      (31 ≤ (run btkcInit ops).btkc_timeout ∧
        (run btkcInit ops).btkc_timeout ≤ 30000) :=
  run_timeout_inv ops btkcInit (Or.inl rfl)

/-- C5: legacy timeout round-trip convergence — writing 5 stores 5000 and
writing 5000 stores 5000; generally every accepted write of `v` in
`1..=30` stores `v * 1000` and every accepted write of `v` in
`1000..=30000` stores `v` unchanged. -/
theorem timeout_legacy_convergence (s : S) (v : Nat) :
    (btkc_timeout_store s 5).1.btkc_timeout = 5000 ∧
    (btkc_timeout_store s 5000).1.btkc_timeout = 5000 ∧
    (1 ≤ v → v ≤ 30 →
      (btkc_timeout_store s v).1.btkc_timeout = v * 1000) ∧
    (1000 ≤ v → v ≤ 30000 →
      (btkc_timeout_store s v).1.btkc_timeout = v) := by
  refine ⟨?_, ?_, ?_, ?_⟩
  · rw [timeout_store_timeout]
    norm_num
  · rw [timeout_store_timeout]
    norm_num
  · intro h1 h2
    rw [timeout_store_timeout, if_pos (by omega), if_pos h2]
  · intro h1 h2
    rw [timeout_store_timeout, if_pos h2, if_neg (by omega)]

/-- C5 witness: the theorem applied at the default state with the legacy
write 7 and the millisecond write 20000 (and the fixed inputs 5 and
5000). -/
theorem timeout_legacy_convergence_witness :
    (btkc_timeout_store btkcInit 5).1.btkc_timeout = 5000 ∧
    (btkc_timeout_store btkcInit 5000).1.btkc_timeout = 5000 ∧
    (btkc_timeout_store btkcInit 7).1.btkc_timeout = 7000 ∧
    (btkc_timeout_store btkcInit 20000).1.btkc_timeout = 20000 :=
  ⟨(timeout_legacy_convergence btkcInit 7).1,
    (timeout_legacy_convergence btkcInit 7).2.1,
    (timeout_legacy_convergence btkcInit 7).2.2.1 (by decide) (by decide),
    (timeout_legacy_convergence btkcInit 20000).2.2.2 (by decide)
      (by decide)⟩

/-- C6 counterexample: 42 lies outside the claimed accepted set
`{0} ∪ [1, 30] ∪ [1000, 30000]`, yet the timeout store accepts it (its
guard is `[0, 30000]`): the stored timeout changes to 42 and the write
issues a timer cancellation and an actuator OFF command, so the rejected
write is not a no-op as claimed. -/
theorem store_rejection_cex :
    (btkc_timeout_store btkcInit 42).1.btkc_timeout = 42 ∧
    (btkc_timeout_store btkcInit 42).2 =
      [Eff.cancel, Eff.led LedCmd.LED_OFF] := by
  decide

/-- C6 amended: rejected configuration writes are complete no-ops — for
every value above `MODE_OFF` (outside `{0,1,2}` in the unsigned input
domain) the mode store leaves the state unchanged and issues no actuator
command and no timer operation, and for every value above `TIMEOUT_MAX`
(outside the accepted guard range `[0, 30000]`, which is wider than the
claimed `{0} ∪ [1,30] ∪ [1000,30000]`) the timeout store likewise leaves
the state unchanged and issues nothing. -/
theorem store_rejection_noop (s : S) (v w : Nat)
    (hv : MODE_OFF < v) (hw : TIMEOUT_MAX < w) :
    btkc_mode_store s v = (s, []) ∧ btkc_timeout_store s w = (s, []) := by
  constructor
  · rw [mode_store_eq, if_neg (Nat.not_le.mpr hv)]
  · rw [timeout_store_eq, if_neg (Nat.not_le.mpr hw)]

/-- C6 amended witness: the theorem applied at the default state with the
out-of-range mode 3 and timeout 30001. -/
theorem store_rejection_noop_witness :
    btkc_mode_store btkcInit 3 = (btkcInit, []) ∧
    btkc_timeout_store btkcInit 30001 = (btkcInit, []) :=
  store_rejection_noop btkcInit 3 30001 (by decide) (by decide)

/-- C9 counterexample: at a state with a pending timer (touchkey+display
mode, timeout 2000), the exit routine's trace is exactly the sysfs
removal, the timer cancellation, the work flush and the notifier
unregistration — it contains no actuator OFF command, contradicting the
claim that teardown issues one. -/
theorem exit_no_led_off_cex :
    (btk_control_exit ⟨0, 2000, 0, 1⟩).2 =
      [Eff.sysfsRemove, Eff.cancel, Eff.flush, Eff.fbUnregister] ∧
    Eff.led LedCmd.LED_OFF ∉ (btk_control_exit ⟨0, 2000, 0, 1⟩).2 := by
  decide

/-- C9 amended: on teardown, from every state, the exit routine cancels
any pending deferred-off timer (and flushes outstanding work) before
detaching; it issues no actuator command, so the LED is left in whatever
state it last held. -/
theorem exit_teardown_spec (s : S) :
    btk_control_exit s =
      ({ s with pending := 0 },
        [Eff.sysfsRemove, Eff.cancel, Eff.flush, Eff.fbUnregister]) :=
  exit_eq s

/-- C10: the hardware-LED-request hook is side-effect free — as a trigger
step it modifies none of the mode, timeout, touched flag or pending
timer and issues no command — and its verdict depends only on the
(mode, timeout) pair; in particular it vetoes in touchkey-only mode with
a nonzero timeout regardless of the touched flag and of whether a timer
is actually pending. -/
theorem led_set_frame (s1 s2 : S) (v : Int)
    (hm : s1.btkc_mode = s2.btkc_mode)
    (ht : s1.btkc_timeout = s2.btkc_timeout) :
    btkc_led_set s1 v = btkc_led_set s2 v ∧
    step s1 (Op.ledSet v) = s1 ∧
    (s1.btkc_mode = MODE_TOUCHKEY_ONLY → s1.btkc_timeout ≠ 0 →
      btkc_led_set s1 v = -EPERM) := by
  refine ⟨?_, rfl, ?_⟩
  · simp only [btkc_led_set, hm, ht]
  · intro h1 h2
    simp [btkc_led_set, h1, h2]

/-- C10 witness: the theorem applied in touchkey-only mode with timeout
3000 at a state with no touch in progress and no pending timer, compared
against a state with both; the verdict is the veto `-EPERM` in both. -/
theorem led_set_frame_witness :
    btkc_led_set ⟨1, 3000, 0, 0⟩ 255 = btkc_led_set ⟨1, 3000, 1, 1⟩ 255 ∧
    step ⟨1, 3000, 0, 0⟩ (Op.ledSet 255) = ⟨1, 3000, 0, 0⟩ ∧
    btkc_led_set ⟨1, 3000, 0, 0⟩ 255 = -EPERM :=
  have h := led_set_frame ⟨1, 3000, 0, 0⟩ ⟨1, 3000, 1, 1⟩ 255 rfl rfl
  ⟨h.1, h.2.1, h.2.2 rfl (by decide)⟩

end Btkc
